/-
Verification of the Digiducer/Python device-discovery core.

Shallow embedding of the two near-duplicate discovery routines:
  * FindDigiDevices  (src/FindDigiDevices.py, lines 20-89): the legacy
    variant, which on an unrecognized format code prints a message and
    falls through to the append, and on an empty result prints a message
    and returns the empty list;
  * TMSFindDevices   (src/TMS_Digital_Audio.py, lines 44-113): the strict
    variant, which raises FormatError / NoDevicesFound -- two names that
    are defined nowhere in the program, so the raise statements themselves
    fail with Python NameError.

Python strings are embedded through their character lists; Python slices,
the int() conversion and datetime.strptime with format "%y%m%d" are
embedded below.  Exceptions are modelled with Except over the PyError
type; only errors the program can actually produce have constructors.
Float arithmetic is embedded exactly over the rationals (the scale
expressions 8388608.0/s and 855400.0/s are carried symbolically; the
final float32 rounding numpy applies is not part of the formula of any
claim and is not modelled).
-/
import Mathlib

/-! ## Python string primitives -/

/-- Python slice `s[a:b]` for `0 ≤ a ≤ b` (clamps at the end of the
string, as Python slices do). -/
def pySlice (s : String) (a b : Nat) : String :=
  String.mk ((s.toList.drop a).take (b - a))

/-- `leadsWith p s` : the character list `p` starts the list `s`. -/
def leadsWith : List Char → List Char → Bool
  | [], _ => true
  | _ :: _, [] => false
  | p :: ps, s :: ss => p = s && leadsWith ps ss

/-- Index of the first occurrence of `p` inside a list, if any
(Python `find` when the result is non-negative). -/
def subIdx (p : List Char) : List Char → Option Nat
  | [] => if leadsWith p [] then some 0 else none
  | s :: t => if leadsWith p (s :: t) then some 0 else (subIdx p t).map (· + 1)

/-- Python `name.find(sub)` as an Option (the source only calls `find`
on substrings known to occur, so the -1 case is `none` here). -/
def pyFind (name sub : String) : Option Nat :=
  subIdx sub.toList name.toList

/-- Strip leading and trailing spaces, the whitespace stripping Python
`int()` performs; the device-name fields only ever contain spaces and
digits, so only the space character needs stripping. -/
def pyStrip (s : List Char) : List Char :=
  ((s.dropWhile (fun c => c = ' ')).reverse.dropWhile (fun c => c = ' ')).reverse

/-- Value of a non-empty all-digit character list, base 10. -/
def digitsVal? (cs : List Char) : Option Nat :=
  if cs ≠ [] ∧ cs.all Char.isDigit then
    some (cs.foldl (fun a c => 10 * a + (c.toNat - 48)) 0)
  else none

/-- Python `int(s)`: strip whitespace, optional sign, then base-10
digits; anything else raises ValueError, here `none`. -/
def pyInt? (s : String) : Option Int :=
  match pyStrip s.toList with
  | [] => none
  | c :: rest =>
    if c = '-' then (digitsVal? rest).map (fun n => -(n : Int))
    else if c = '+' then (digitsVal? rest).map (fun n => (n : Int))
    else (digitsVal? (c :: rest)).map (fun n => (n : Int))

/-! ## Dates -/

/-- Calendar date produced by `datetime.strptime` with format "%y%m%d". -/
structure Date where
  year : Nat
  month : Nat
  day : Nat
deriving DecidableEq, Repr

def isLeap (y : Nat) : Bool :=
  (y % 4 == 0 && y % 100 != 0) || y % 400 == 0

def daysInMonth (y m : Nat) : Nat :=
  if m = 2 then (if isLeap y then 29 else 28)
  else if m = 4 ∨ m = 6 ∨ m = 9 ∨ m = 11 then 30
  else 31

/-- `datetime.strptime(s, "%y%m%d")` restricted to the six-character
inputs the device names carry: two digits each for year (pivot 69:
00-68 map to the 2000s, 69-99 to the 1900s), month and day, with month
and day-of-month validity checked as strptime does.  Inputs that are not
exactly six digits fail (`none`), which is what strptime does on every
such input the program can slice out of a well-formed device name. -/
def strptime6? (s : String) : Option Date :=
  match s.toList with
  | [y1, y2, m1, m2, d1, d2] =>
    if [y1, y2, m1, m2, d1, d2].all Char.isDigit then
      let pairVal := fun (a b : Char) => 10 * (a.toNat - 48) + (b.toNat - 48)
      let yy := pairVal y1 y2
      let year := if yy ≤ 68 then 2000 + yy else 1900 + yy
      let mm := pairVal m1 m2
      let dd := pairVal d1 d2
      if 1 ≤ mm ∧ mm ≤ 12 ∧ 1 ≤ dd ∧ dd ≤ daysInMonth year mm then
        some ⟨year, mm, dd⟩
      else none
    else none
  | _ => none

deriving instance DecidableEq for Except

/-! ## Data model -/

/-- One raw device descriptor from `sd.query_devices()`: the fields the
discovery code reads (name and hostapi). -/
structure RawDevice where
  name : String
  hostapi : Nat
deriving DecidableEq, Repr

/-- Format value 0, acceleration (`form = 0` in the source). -/
def ACCELERATION : Nat := 0

/-- Format value 1, voltage (`form = 1` in the source). -/
def VOLTAGE : Nat := 1

/-- One decoded record, the dictionary appended to `dev_info`
(both variants append the same seven keys). -/
structure DevInfo where
  device : Nat
  model : String
  serial_number : String
  date : Date
  format : Nat
  sensitivity_int : Int × Int
  scale : ℚ × ℚ
deriving DecidableEq, Repr

/-- Exceptions the embedded program can actually raise.  `nameError` is
the Python NameError produced by evaluating an undefined identifier in a
raise statement; `unboundLocal` the UnboundLocalError from reading a
never-assigned local; `valueError` comes from `int()` / strptime on a
bad field (carrying the offending text); `zeroDivision` from division of
a float by an integer zero sensitivity. -/
inductive PyError where
  | nameError (missing : String)
  | unboundLocal (var : String)
  | valueError (text : String)
  | zeroDivision
deriving DecidableEq, Repr

/-- Exception class names defined anywhere in the four source files of
the repository: there are none (no class statement appears in any of
them, and nothing is brought in from other modules besides library
functions). -/
def definedExceptionNames : List String := []

/-- A Python statement `raise Cls(msg)`.  `valueError (cls ++ msg)`
would stand for the raise of a defined exception class; since
`definedExceptionNames = []` that arm is unreachable, and every raise
statement in the source instead fails with NameError at the evaluation
of the undefined class name. -/
def raiseStmt (cls msg : String) : PyError :=
  if cls ∈ definedExceptionNames then PyError.valueError (cls ++ msg)
  else PyError.nameError cls

/-! ## Host-API selection (lines 28-37 / 52-61) -/

/-- The Windows loop: `api_num = 0`, then for each api break if its name
equals "Windows WDM-KS" else increment -- index of the first entry with
that name, or the list length when none has it. -/
def wdmksScan : List String → Nat
  | [] => 0
  | h :: t => if h = "Windows WDM-KS" then 0 else wdmksScan t + 1

/-- `api_num` as both variants compute it: the WDM-KS scan on win32,
0 on every other platform. -/
def selectApiNum (platform : String) (hapis : List String) : Nat :=
  if platform = "win32" then wdmksScan hapis else 0

/-! ## Model matching (lines 22, 48-50 / 46, 72-74) -/

/-- The Modal Shop model number substrings, in table order. -/
def models : List String := ["485B", "333D", "633A", "SDC0"]

/-- `match = next((x for x in models if x in name), False)` followed by
`loc = name.find(match)`: the location of the first occurrence of the
first model substring (in table order) contained in `name`. -/
def matchLoc? (name : String) : Option Nat :=
  match models.find? (fun m => (pyFind name m).isSome) with
  | none => none
  | some m => pyFind name m

/-! ## Per-device field decode (lines 51-76 / 75-100)

The two variants share this decode verbatim except for the final else
arm: the strict variant raises (`raiseStmt "FormatError" ...`), the
legacy variant prints and falls through to the append.  The legacy fall
through is embedded separately in `digiLoop` below, which calls
`decodeAt` only on the three valid codes, for which the arms here are
the shared code of both files. -/

def decodeAt (name : String) (loc dev_num : Nat) : Except PyError DevInfo :=
  if pySlice name (loc + 7) (loc + 8) = "2" ∨ pySlice name (loc + 7) (loc + 8) = "3" then
    match pyInt? (pySlice name (loc + 14) (loc + 21)) with
    | none => .error (.valueError (pySlice name (loc + 14) (loc + 21)))
    | some a =>
      match pyInt? (pySlice name (loc + 21) (loc + 28)) with
      | none => .error (.valueError (pySlice name (loc + 21) (loc + 28)))
      | some b =>
        let sens : Int × Int :=
          if pySlice name (loc + 7) (loc + 8) = "3" then (20 * a, 20 * b) else (a, b)
        if sens.1 = 0 ∨ sens.2 = 0 then .error .zeroDivision
        else
          match strptime6? (pySlice name (loc + 28) (loc + 34)) with
          | none => .error (.valueError (pySlice name (loc + 28) (loc + 34)))
          | some date =>
            .ok ⟨dev_num, pySlice name loc (loc + 6), pySlice name (loc + 8) (loc + 14),
                 date, VOLTAGE, sens, (8388608 / (sens.1 : ℚ), 8388608 / (sens.2 : ℚ))⟩
  else if pySlice name (loc + 7) (loc + 8) = "1" then
    match pyInt? (pySlice name (loc + 14) (loc + 19)) with
    | none => .error (.valueError (pySlice name (loc + 14) (loc + 19)))
    | some a =>
      match pyInt? (pySlice name (loc + 19) (loc + 24)) with
      | none => .error (.valueError (pySlice name (loc + 19) (loc + 24)))
      | some b =>
        if a = 0 ∨ b = 0 then .error .zeroDivision
        else
          match strptime6? (pySlice name (loc + 24) (loc + 30)) with
          | none => .error (.valueError (pySlice name (loc + 24) (loc + 30)))
          | some date =>
            .ok ⟨dev_num, pySlice name loc (loc + 6), pySlice name (loc + 8) (loc + 14),
                 date, ACCELERATION, (a, b), (855400 / (a : ℚ), 855400 / (b : ℚ))⟩
  else .error (raiseStmt "FormatError" "Expecting 1, 2, or 3 format")

/-! ## Strict variant: TMSFindDevices (src/TMS_Digital_Audio.py 44-113) -/

/-- The device loop of TMSFindDevices, carrying `(dev_num, dev_info)`.
`dev_num` is incremented once per raw device whether or not it matches. -/
def tmsLoop (api : Nat) : Nat × List DevInfo → List RawDevice →
    Except PyError (Nat × List DevInfo)
  | acc, [] => .ok acc
  | (n, info), d :: t =>
    if d.hostapi = api then
      match matchLoc? d.name with
      | none => tmsLoop api (n + 1, info) t
      | some loc =>
        match decodeAt d.name loc n with
        | .error e => .error e
        | .ok r => tmsLoop api (n + 1, info ++ [r]) t
    else tmsLoop api (n + 1, info) t

def TMSFindDevices (devices : List RawDevice) (hapis : List String)
    (platform : String) : Except PyError (List DevInfo) :=
  match tmsLoop (selectApiNum platform hapis) (0, []) devices with
  | .error e => .error e
  | .ok (_, info) =>
    if info = [] then .error (raiseStmt "NoDevicesFound" "No compatible devices found")
    else .ok info

/-! ## Legacy variant: FindDigiDevices (src/FindDigiDevices.py 20-89)

The legacy else arm prints "Expecting 1, 2, or 3 format" and falls
through to the append, which reads the loop-carried locals `date`,
`form`, `sens`, `scale`.  Those four are assigned together by every
valid decode, so the loop state carries them as one optional tuple;
when none of them has ever been assigned, the dictionary display raises
UnboundLocalError at its first stale value, `date` (the dictionary
values are evaluated left to right).  The prints have no observable
effect here; on an empty result this variant just returns the empty
list. -/

structure DigiState where
  dev_num : Nat
  dev_info : List DevInfo
  stale : Option (Date × Nat × (Int × Int) × (ℚ × ℚ))
deriving DecidableEq, Repr

def digiLoop (api : Nat) : DigiState → List RawDevice → Except PyError DigiState
  | st, [] => .ok st
  | st, d :: t =>
    if d.hostapi = api then
      match matchLoc? d.name with
      | none => digiLoop api ⟨st.dev_num + 1, st.dev_info, st.stale⟩ t
      | some loc =>
        if pySlice d.name (loc + 7) (loc + 8) = "2"
            ∨ pySlice d.name (loc + 7) (loc + 8) = "3"
            ∨ pySlice d.name (loc + 7) (loc + 8) = "1" then
          match decodeAt d.name loc st.dev_num with
          | .error e => .error e
          | .ok r =>
            digiLoop api
              ⟨st.dev_num + 1, st.dev_info ++ [r],
               some (r.date, r.format, r.sensitivity_int, r.scale)⟩ t
        else
          match st.stale with
          | none => .error (.unboundLocal "date")
          | some (date, form, sens, scale) =>
            digiLoop api
              ⟨st.dev_num + 1,
               st.dev_info ++
                 [⟨st.dev_num, pySlice d.name loc (loc + 6),
                   pySlice d.name (loc + 8) (loc + 14), date, form, sens, scale⟩],
               some (date, form, sens, scale)⟩ t
    else digiLoop api ⟨st.dev_num + 1, st.dev_info, st.stale⟩ t

def FindDigiDevices (devices : List RawDevice) (hapis : List String)
    (platform : String) : Except PyError (List DevInfo) :=
  match digiLoop (selectApiNum platform hapis) ⟨0, [], none⟩ devices with
  | .error e => .error e
  | .ok st => .ok st.dev_info

/-! ## Spec-side definitions and concrete inputs -/

/-- Spec-side description of the ordering contract: the 0-based
positions, counted from `b` in enumeration order, of the raw devices
that pass the host-API filter and contain a known model substring. -/
def matchedIdx (api : Nat) : Nat → List RawDevice → List Nat
  | _, [] => []
  | b, d :: t =>
    if d.hostapi = api ∧ (matchLoc? d.name).isSome then b :: matchedIdx api (b + 1) t
    else matchedIdx api (b + 1) t

/-- A well-formed acceleration device name: model 333D01, code 1, serial
654321, sensitivities 100 and 100, calibrated 2022-06-15. -/
def accelName : String := "333D01 16543210010000100220615"

/-- A matched name whose format code is "9", not one of 1, 2, 3. -/
def bad9Name : String := "333D02 9999999"

/-- The concrete scenario name of the spec, with spaces between the
serial, sensitivity and date fields. -/
def c7Name : String := "USB Audio Device (485B39 2 123456 0256000 0256000 220615)"

/-- The same scenario with the fields contiguous after the format code,
as the fixed offsets of the source require. -/
def c7FixedName : String := "USB Audio Device (485B39 212345602560000256000220615)"

/-- A voltage name with format code 3 and raw sensitivities 25000. -/
def volt3Name : String := "485B38 312345600250000025000220615"

/-- A voltage name with format code 2 and sensitivities 256000. -/
def volt2Name : String := "485B39 212345602560000256000220615"

/-- The record decoded from `volt3Name` at offset 0. -/
def volt3Rec : DevInfo :=
  ⟨0, "485B38", "123456", ⟨2022, 6, 15⟩, VOLTAGE, (500000, 500000),
   (8388608 / ((500000 : Int) : ℚ), 8388608 / ((500000 : Int) : ℚ))⟩

/-- The record decoded from `volt2Name` at offset 0. -/
def volt2Rec : DevInfo :=
  ⟨0, "485B39", "123456", ⟨2022, 6, 15⟩, VOLTAGE, (256000, 256000),
   (8388608 / ((256000 : Int) : ℚ), 8388608 / ((256000 : Int) : ℚ))⟩

/-- The record decoded from `accelName` at offset 0. -/
def accelRec : DevInfo :=
  ⟨0, "333D01", "654321", ⟨2022, 6, 15⟩, ACCELERATION, (100, 100),
   (855400 / ((100 : Int) : ℚ), 855400 / ((100 : Int) : ℚ))⟩

/-- Two-device enumeration for the ordering witness: a non-matching
name first, then a valid device, both on host API 0. -/
def c8ds : List RawDevice := [⟨"nothing", 0⟩, ⟨accelName, 0⟩]

/-- The single record discovery decodes from `c8ds`: it carries device
index 1, the position of the matching device in the full enumeration. -/
def c8Rec : DevInfo :=
  ⟨1, "333D01", "654321", ⟨2022, 6, 15⟩, ACCELERATION, (100, 100),
   (855400 / ((100 : Int) : ℚ), 855400 / ((100 : Int) : ℚ))⟩

/-! ## Helper lemmas -/

/-- Every record `decodeAt` returns carries the running device counter
it was given. -/
theorem decodeAt_device (name : String) (loc n : Nat) (r : DevInfo)
    (h : decodeAt name loc n = Except.ok r) : r.device = n := by
  simp only [decodeAt] at h
  by_cases h23 : pySlice name (loc + 7) (loc + 8) = "2" ∨ pySlice name (loc + 7) (loc + 8) = "3"
  · rw [if_pos h23] at h
    cases ha : pyInt? (pySlice name (loc + 14) (loc + 21)) with
    | none => simp [ha] at h
    | some a =>
      cases hb : pyInt? (pySlice name (loc + 21) (loc + 28)) with
      | none => simp [ha, hb] at h
      | some b =>
        simp only [ha, hb] at h
        split at h
        all_goals
          split at h
          · exact absurd h (by simp)
          · cases hd : strptime6? (pySlice name (loc + 28) (loc + 34)) with
            | none => simp [hd] at h
            | some date =>
              simp only [hd, Except.ok.injEq] at h
              rw [← h]
  · rw [if_neg h23] at h
    by_cases h1 : pySlice name (loc + 7) (loc + 8) = "1"
    · rw [if_pos h1] at h
      cases ha : pyInt? (pySlice name (loc + 14) (loc + 19)) with
      | none => simp [ha] at h
      | some a =>
        cases hb : pyInt? (pySlice name (loc + 19) (loc + 24)) with
        | none => simp [ha, hb] at h
        | some b =>
          simp only [ha, hb] at h
          split at h
          · exact absurd h (by simp)
          · cases hd : strptime6? (pySlice name (loc + 24) (loc + 30)) with
            | none => simp [hd] at h
            | some date =>
              simp only [hd, Except.ok.injEq] at h
              rw [← h]
    · rw [if_neg h1] at h
      exact absurd h (by simp)

/-- The strict loop maps its decoded records onto the matched positions. -/
theorem tmsLoop_map_device (api : Nat) (ds : List RawDevice) :
    ∀ (n : Nat) (acc : List DevInfo) (res : Nat × List DevInfo),
      tmsLoop api (n, acc) ds = Except.ok res →
      res.2.map (fun x => x.device) =
        acc.map (fun x => x.device) ++ matchedIdx api n ds := by
  induction ds with
  | nil =>
    intro n acc res h
    simp only [tmsLoop] at h
    cases h
    simp [matchedIdx]
  | cons d t ih =>
    intro n acc res h
    simp only [tmsLoop] at h
    by_cases hapi : d.hostapi = api
    · rw [if_pos hapi] at h
      cases hm : matchLoc? d.name with
      | none =>
        simp only [hm] at h
        rw [ih (n + 1) acc res h]
        simp [matchedIdx, hapi, hm]
      | some loc =>
        simp only [hm] at h
        cases hd : decodeAt d.name loc n with
        | error e => simp only [hd] at h; exact absurd h (by simp)
        | ok r =>
          simp only [hd] at h
          rw [ih (n + 1) (acc ++ [r]) res h]
          simp [matchedIdx, hapi, hm, decodeAt_device d.name loc n r hd]
    · rw [if_neg hapi] at h
      rw [ih (n + 1) acc res h]
      simp [matchedIdx, hapi]

/-- The legacy loop maps its appended records onto the matched
positions as well; the stale-append arm also tags the current counter. -/
theorem digiLoop_map_device (api : Nat) (ds : List RawDevice) :
    ∀ (st res : DigiState), digiLoop api st ds = Except.ok res →
      res.dev_info.map (fun x => x.device) =
        st.dev_info.map (fun x => x.device) ++ matchedIdx api st.dev_num ds := by
  induction ds with
  | nil =>
    intro st res h
    simp only [digiLoop] at h
    cases h
    simp [matchedIdx]
  | cons d t ih =>
    intro st res h
    simp only [digiLoop] at h
    by_cases hapi : d.hostapi = api
    · rw [if_pos hapi] at h
      cases hm : matchLoc? d.name with
      | none =>
        simp only [hm] at h
        rw [ih _ res h]
        simp [matchedIdx, hapi, hm]
      | some loc =>
        simp only [hm] at h
        split at h
        · cases hd : decodeAt d.name loc st.dev_num with
          | error e => simp only [hd] at h; exact absurd h (by simp)
          | ok r =>
            simp only [hd] at h
            rw [ih _ res h]
            simp [matchedIdx, hapi, hm, decodeAt_device d.name loc st.dev_num r hd]
        · cases hst : st.stale with
          | none => simp only [hst] at h; exact absurd h (by simp)
          | some q =>
            obtain ⟨date, form, sens, scale⟩ := q
            simp only [hst] at h
            rw [ih _ res h]
            simp [matchedIdx, hapi, hm]
    · rw [if_neg hapi] at h
      rw [ih _ res h]
      simp [matchedIdx, hapi]

/-- When no device passes both filters, the strict loop returns its
accumulator with the counter advanced by the list length. -/
theorem tmsLoop_no_match (api : Nat) (ds : List RawDevice)
    (hds : ∀ d ∈ ds, d.hostapi = api → matchLoc? d.name = none) :
    ∀ n acc, tmsLoop api (n, acc) ds = Except.ok (n + ds.length, acc) := by
  induction ds with
  | nil => intro n acc; simp [tmsLoop]
  | cons d t ih =>
    intro n acc
    simp only [tmsLoop]
    have ht : ∀ d ∈ t, d.hostapi = api → matchLoc? d.name = none := by
      intro x hx; exact hds x (List.mem_cons_of_mem d hx)
    by_cases hapi : d.hostapi = api
    · rw [if_pos hapi, hds d (List.mem_cons_self d t) hapi]
      rw [ih ht (n + 1) acc]
      rw [show n + (d :: t).length = n + 1 + t.length from by simp; omega]
    · rw [if_neg hapi]
      rw [ih ht (n + 1) acc]
      rw [show n + (d :: t).length = n + 1 + t.length from by simp; omega]

/-- Same for the legacy loop: accumulator and stale state unchanged. -/
theorem digiLoop_no_match (api : Nat) (ds : List RawDevice)
    (hds : ∀ d ∈ ds, d.hostapi = api → matchLoc? d.name = none) :
    ∀ n info st, digiLoop api ⟨n, info, st⟩ ds = Except.ok ⟨n + ds.length, info, st⟩ := by
  induction ds with
  | nil => intro n info st; simp [digiLoop]
  | cons d t ih =>
    intro n info st
    simp only [digiLoop]
    have ht : ∀ d ∈ t, d.hostapi = api → matchLoc? d.name = none := by
      intro x hx; exact hds x (List.mem_cons_of_mem d hx)
    by_cases hapi : d.hostapi = api
    · rw [if_pos hapi, hds d (List.mem_cons_self d t) hapi]
      rw [ih ht (n + 1) info st]
      rw [show n + (d :: t).length = n + 1 + t.length from by simp; omega]
    · rw [if_neg hapi]
      rw [ih ht (n + 1) info st]
      rw [show n + (d :: t).length = n + 1 + t.length from by simp; omega]

/-- The break-counting scan equals the first-index function. -/
theorem wdmksScan_eq_findIdx (hapis : List String) :
    wdmksScan hapis = hapis.findIdx (fun h => h == "Windows WDM-KS") := by
  induction hapis with
  | nil => simp [wdmksScan]
  | cons h t ih =>
    simp only [wdmksScan, List.findIdx_cons]
    by_cases hh : h = "Windows WDM-KS"
    · simp [hh]
    · rw [if_neg hh, ih]
      rw [show (h == "Windows WDM-KS") = false from by simpa using hh]
      rfl

/-- Without a WDM-KS entry the scan falls through to the length. -/
theorem wdmksScan_not_found (hapis : List String)
    (h : ∀ x ∈ hapis, x ≠ "Windows WDM-KS") : wdmksScan hapis = hapis.length := by
  induction hapis with
  | nil => simp [wdmksScan]
  | cons a t ih =>
    simp only [wdmksScan]
    rw [if_neg (h a (List.mem_cons_self a t))]
    rw [ih (fun x hx => h x (List.mem_cons_of_mem a hx))]
    simp

/-! ## Claim theorems -/

/-- Claim C1: the claim states that a matched device whose format code is
not 1, 2 or 3 never yields a DecodedDevice.  The legacy variant violates
this: after printing the diagnostic it still appends a record for the
bad device, built from the previous valid decode of the same call (and
when no previous valid decode exists, the append itself fails with
UnboundLocalError).  This theorem evaluates the code at the failing
input: the format-code-9 device gets a record (device index 1, its own
model and serial, everything else stale). -/
theorem c1_bad_format_record_appended :
    FindDigiDevices [⟨accelName, 0⟩, ⟨bad9Name, 0⟩] [] "linux" =
      Except.ok [⟨0, "333D01", "654321", ⟨2022, 6, 15⟩, ACCELERATION, (100, 100),
                   (855400 / ((100 : Int) : ℚ), 855400 / ((100 : Int) : ℚ))⟩,
                 ⟨1, "333D02", "999999", ⟨2022, 6, 15⟩, ACCELERATION, (100, 100),
                   (855400 / ((100 : Int) : ℚ), 855400 / ((100 : Int) : ℚ))⟩]
  ∧ FindDigiDevices [⟨bad9Name, 0⟩] [] "linux" =
      Except.error (PyError.unboundLocal "date") := ⟨rfl, rfl⟩

/-- Claim C2: for a matched name with format code "3" whose two 7-character
sensitivity fields parse as integers s0 and s1, any record the decode
produces has format VOLTAGE, sensitivity pair (20 s0, 20 s1) and scale
pair (8388608/(20 s0), 8388608/(20 s1)). -/
theorem c2_format3_voltage_scale (name : String) (loc n : Nat) (s0 s1 : Int) (r : DevInfo)
    (hfmt : pySlice name (loc + 7) (loc + 8) = "3")
    (h0 : pyInt? (pySlice name (loc + 14) (loc + 21)) = some s0)
    (h1 : pyInt? (pySlice name (loc + 21) (loc + 28)) = some s1)
    (hr : decodeAt name loc n = Except.ok r) :
    r.format = VOLTAGE ∧ r.sensitivity_int = (20 * s0, 20 * s1) ∧
      r.scale = (8388608 / (20 * (s0 : ℚ)), 8388608 / (20 * (s1 : ℚ))) := by
  simp only [decodeAt, hfmt, h0, h1, or_true, if_true] at hr
  split at hr
  · exact absurd hr (by simp)
  · split at hr
    · exact absurd hr (by simp)
    · cases hr
      refine ⟨rfl, rfl, ?_⟩
      push_cast
      rfl

/-- Claim C2 witness: the code of `c2_format3_voltage_scale` applied to
the concrete format-3 name `volt3Name`, raw sensitivities 25000. -/
theorem c2_witness :
    pySlice volt3Name (0 + 7) (0 + 8) = "3"
  ∧ pyInt? (pySlice volt3Name (0 + 14) (0 + 21)) = some 25000
  ∧ pyInt? (pySlice volt3Name (0 + 21) (0 + 28)) = some 25000
  ∧ decodeAt volt3Name 0 0 = Except.ok volt3Rec
  ∧ (volt3Rec.format = VOLTAGE ∧ volt3Rec.sensitivity_int = (20 * 25000, 20 * 25000) ∧
      volt3Rec.scale = (8388608 / (20 * ((25000 : Int) : ℚ)), 8388608 / (20 * ((25000 : Int) : ℚ)))) :=
  ⟨rfl, rfl, rfl, rfl, c2_format3_voltage_scale volt3Name 0 0 25000 25000 volt3Rec rfl rfl rfl rfl⟩

/-- Claim C3: for a matched name with format code "1" whose two 5-character
sensitivity fields (offsets +14:+19 and +19:+24) parse as integers, any
record the decode produces has format ACCELERATION, scale 855400/s per
channel, and its calibration date is the strptime of the 6 characters at
offsets +24:+30, immediately after the second sensitivity field. -/
theorem c3_format1_acceleration_scale_date (name : String) (loc n : Nat)
    (s0 s1 : Int) (r : DevInfo)
    (hfmt : pySlice name (loc + 7) (loc + 8) = "1")
    (h0 : pyInt? (pySlice name (loc + 14) (loc + 19)) = some s0)
    (h1 : pyInt? (pySlice name (loc + 19) (loc + 24)) = some s1)
    (hr : decodeAt name loc n = Except.ok r) :
    r.format = ACCELERATION ∧ r.sensitivity_int = (s0, s1) ∧
      r.scale = (855400 / (s0 : ℚ), 855400 / (s1 : ℚ)) ∧
      strptime6? (pySlice name (loc + 24) (loc + 30)) = some r.date := by
  simp only [decodeAt, hfmt, h0, h1,
    (by decide : ((("1" : String) = "2")) = False),
    (by decide : ((("1" : String) = "3")) = False),
    (by decide : ((("1" : String) = "1")) = True),
    or_self, if_false, if_true] at hr
  split at hr
  · exact absurd hr (by simp)
  · split at hr
    · exact absurd hr (by simp)
    · next date hdate =>
      cases hr
      exact ⟨rfl, rfl, rfl, by rw [hdate]⟩

/-- Claim C3 witness: `c3_format1_acceleration_scale_date` applied to the
concrete format-1 name `accelName`, sensitivities 100. -/
theorem c3_witness :
    pySlice accelName (0 + 7) (0 + 8) = "1"
  ∧ pyInt? (pySlice accelName (0 + 14) (0 + 19)) = some 100
  ∧ pyInt? (pySlice accelName (0 + 19) (0 + 24)) = some 100
  ∧ decodeAt accelName 0 0 = Except.ok accelRec
  ∧ (accelRec.format = ACCELERATION ∧ accelRec.sensitivity_int = (100, 100) ∧
      accelRec.scale = (855400 / ((100 : Int) : ℚ), 855400 / ((100 : Int) : ℚ)) ∧
      strptime6? (pySlice accelName (0 + 24) (0 + 30)) = some accelRec.date) :=
  ⟨rfl, rfl, rfl, rfl,
   c3_format1_acceleration_scale_date accelName 0 0 100 100 accelRec rfl rfl rfl rfl⟩

/-- Claim C4: for a matched name with format code "2" whose two 7-character
sensitivity fields parse as integers, any record the decode produces has
format VOLTAGE, the parsed sensitivities unchanged, and scale exactly
8388608/s per channel, with no factor of 20 applied. -/
theorem c4_format2_voltage_scale (name : String) (loc n : Nat) (s0 s1 : Int) (r : DevInfo)
    (hfmt : pySlice name (loc + 7) (loc + 8) = "2")
    (h0 : pyInt? (pySlice name (loc + 14) (loc + 21)) = some s0)
    (h1 : pyInt? (pySlice name (loc + 21) (loc + 28)) = some s1)
    (hr : decodeAt name loc n = Except.ok r) :
    r.format = VOLTAGE ∧ r.sensitivity_int = (s0, s1) ∧
      r.scale = (8388608 / (s0 : ℚ), 8388608 / (s1 : ℚ)) := by
  simp only [decodeAt, hfmt, h0, h1, true_or, if_true,
    (by decide : ((("2" : String) = "3")) = False), if_false] at hr
  split at hr
  · exact absurd hr (by simp)
  · split at hr
    · exact absurd hr (by simp)
    · cases hr
      exact ⟨rfl, rfl, rfl⟩

/-- Claim C4 witness: `c4_format2_voltage_scale` applied to the concrete
format-2 name `volt2Name`, sensitivities 256000. -/
theorem c4_witness :
    pySlice volt2Name (0 + 7) (0 + 8) = "2"
  ∧ pyInt? (pySlice volt2Name (0 + 14) (0 + 21)) = some 256000
  ∧ pyInt? (pySlice volt2Name (0 + 21) (0 + 28)) = some 256000
  ∧ decodeAt volt2Name 0 0 = Except.ok volt2Rec
  ∧ (volt2Rec.format = VOLTAGE ∧ volt2Rec.sensitivity_int = (256000, 256000) ∧
      volt2Rec.scale = (8388608 / ((256000 : Int) : ℚ), 8388608 / ((256000 : Int) : ℚ))) :=
  ⟨rfl, rfl, rfl, rfl,
   c4_format2_voltage_scale volt2Name 0 0 256000 256000 volt2Rec rfl rfl rfl rfl⟩

/-- Claim C5 counterexample: on an enumeration with zero matching devices
the legacy variant does not raise at all -- it returns the empty list --
and the strict variant aborts with NameError (the name NoDevicesFound is
undefined), not with a NoDevicesFoundError; no such exception class
exists anywhere in the program. -/
theorem c5_counterexample :
    FindDigiDevices [] [] "linux" = Except.ok []
  ∧ TMSFindDevices [] [] "linux" = Except.error (PyError.nameError "NoDevicesFound") := ⟨rfl, rfl⟩

/-- Claim C5 as amended: for every input list in which zero raw devices
pass both the host-API filter and the model match, the strict variant
aborts with an exception (a NameError, since NoDevicesFound is
undefined) and produces no partial output, while the legacy variant
returns an empty sequence without raising. -/
theorem c5_no_match_behavior (ds : List RawDevice) (hapis : List String) (p : String)
    (hds : ∀ d ∈ ds, d.hostapi = selectApiNum p hapis → matchLoc? d.name = none) :
    TMSFindDevices ds hapis p = Except.error (PyError.nameError "NoDevicesFound")
      ∧ FindDigiDevices ds hapis p = Except.ok [] := by
  constructor
  · unfold TMSFindDevices
    rw [tmsLoop_no_match (selectApiNum p hapis) ds hds 0 []]
    simp [raiseStmt, definedExceptionNames]
  · unfold FindDigiDevices
    rw [digiLoop_no_match (selectApiNum p hapis) ds hds 0 [] none]

/-- Claim C5 witness: `c5_no_match_behavior` at a one-device list whose
device sits on a filtered-out host API. -/
theorem c5_witness :
    (∀ d ∈ ([⟨"USB Mic", 3⟩] : List RawDevice),
        d.hostapi = selectApiNum "linux" [] → matchLoc? d.name = none)
  ∧ (TMSFindDevices [⟨"USB Mic", 3⟩] [] "linux" =
        Except.error (PyError.nameError "NoDevicesFound")
      ∧ FindDigiDevices [⟨"USB Mic", 3⟩] [] "linux" = Except.ok []) :=
  ⟨by decide, c5_no_match_behavior [⟨"USB Mic", 3⟩] [] "linux" (by decide)⟩

/-- Claim C6: the claim states that one bad-format device next to one
valid device yields exactly the one valid record, with scanning
continuing past the per-device failure.  Neither variant does this: the
strict variant aborts the whole call with NameError at the bad device
(whichever position it is in), returning nothing; the legacy variant
returns two records (the stale-append for the bad device) when the valid
device comes first, and aborts with UnboundLocalError when the bad
device comes first.  This theorem evaluates the code at those inputs. -/
theorem c6_per_device_failure_not_contained :
    TMSFindDevices [⟨accelName, 0⟩, ⟨bad9Name, 0⟩] [] "linux" =
      Except.error (PyError.nameError "FormatError")
  ∧ FindDigiDevices [⟨accelName, 0⟩, ⟨bad9Name, 0⟩] [] "linux" =
      Except.ok [⟨0, "333D01", "654321", ⟨2022, 6, 15⟩, ACCELERATION, (100, 100),
                   (855400 / ((100 : Int) : ℚ), 855400 / ((100 : Int) : ℚ))⟩,
                 ⟨1, "333D02", "999999", ⟨2022, 6, 15⟩, ACCELERATION, (100, 100),
                   (855400 / ((100 : Int) : ℚ), 855400 / ((100 : Int) : ℚ))⟩]
  ∧ TMSFindDevices [⟨bad9Name, 0⟩, ⟨accelName, 0⟩] [] "linux" =
      Except.error (PyError.nameError "FormatError")
  ∧ FindDigiDevices [⟨bad9Name, 0⟩, ⟨accelName, 0⟩] [] "linux" =
      Except.error (PyError.unboundLocal "date") := ⟨rfl, rfl, rfl, rfl⟩

/-- Claim C7 counterexample: on the exact name of the claim, with spaces
between the fields, the fixed offsets slice the serial as " 12345" (not
"123456") and the first sensitivity field as "6 02560", whose `int()`
conversion fails, so discovery aborts with ValueError and decodes
nothing at all. -/
theorem c7_counterexample :
    matchLoc? c7Name = some 18
  ∧ pySlice c7Name 26 32 = " 12345"
  ∧ decodeAt c7Name 18 0 = Except.error (PyError.valueError "6 02560")
  ∧ TMSFindDevices [⟨c7Name, 0⟩] [] "linux" = Except.error (PyError.valueError "6 02560") :=
  ⟨rfl, rfl, rfl, rfl⟩

/-- Claim C7 as amended: with the serial, sensitivity and date fields
written contiguously after the format code, as the fixed offsets of the
source require, decoding the name yields model "485B39", VOLTAGE format
from code "2", serial "123456", sensitivities (256000, 256000), scale
8388608/256000 per channel and calibration date 2022-06-15. -/
theorem c7_contiguous_name_decodes :
    matchLoc? c7FixedName = some 18
  ∧ TMSFindDevices [⟨c7FixedName, 0⟩] [] "linux" =
      Except.ok [⟨0, "485B39", "123456", ⟨2022, 6, 15⟩, VOLTAGE, (256000, 256000),
                   (8388608 / ((256000 : Int) : ℚ), 8388608 / ((256000 : Int) : ℚ))⟩]
  ∧ (8388608 : ℚ) / ((256000 : Int) : ℚ) = 4096 / 125 := ⟨rfl, rfl, by norm_num⟩

/-- Claim C8: whenever either discovery variant returns a record list,
the device indices of the records are exactly the 0-based positions of
the matching raw devices within the full unfiltered enumeration, in
enumeration order (the counter advances once per raw device whether or
not it matches). -/
theorem c8_ordering_device_index (ds : List RawDevice) (hapis : List String) (p : String) :
    (∀ r, TMSFindDevices ds hapis p = Except.ok r →
        r.map (fun x => x.device) = matchedIdx (selectApiNum p hapis) 0 ds)
  ∧ (∀ r, FindDigiDevices ds hapis p = Except.ok r →
        r.map (fun x => x.device) = matchedIdx (selectApiNum p hapis) 0 ds) := by
  constructor
  · intro r h
    unfold TMSFindDevices at h
    cases hl : tmsLoop (selectApiNum p hapis) (0, []) ds with
    | error e => rw [hl] at h; exact absurd h (by simp)
    | ok pr =>
      obtain ⟨n, info⟩ := pr
      simp only [hl] at h
      by_cases he : info = []
      · rw [if_pos he] at h; exact absurd h (by simp)
      · rw [if_neg he] at h
        cases h
        simpa using tmsLoop_map_device (selectApiNum p hapis) ds 0 [] (n, r) hl
  · intro r h
    unfold FindDigiDevices at h
    cases hl : digiLoop (selectApiNum p hapis) ⟨0, [], none⟩ ds with
    | error e => rw [hl] at h; exact absurd h (by simp)
    | ok st =>
      simp only [hl] at h
      cases h
      simpa using digiLoop_map_device (selectApiNum p hapis) ds ⟨0, [], none⟩ st hl

/-- Claim C8 witness: on `c8ds` (non-matching name at position 0, valid
device at position 1) both variants return one record and its device
index list equals `matchedIdx`, namely [1]. -/
theorem c8_witness :
    TMSFindDevices c8ds [] "linux" = Except.ok [c8Rec]
  ∧ FindDigiDevices c8ds [] "linux" = Except.ok [c8Rec]
  ∧ [c8Rec].map (fun x => x.device) = matchedIdx (selectApiNum "linux" []) 0 c8ds :=
  ⟨rfl, rfl, (c8_ordering_device_index c8ds [] "linux").1 [c8Rec] rfl⟩

/-- Claim C9: on the win32 platform the selected host-API index is the
index of the first descriptor named exactly "Windows WDM-KS", falling
through to the sequence length when no descriptor has that name (not an
error); on every other platform the result is 0 regardless of the
host-API sequence. -/
theorem c9_selectHostApi (hapis : List String) (p : String) :
    (p ≠ "win32" → selectApiNum p hapis = 0)
  ∧ selectApiNum "win32" hapis = hapis.findIdx (fun h => h == "Windows WDM-KS")
  ∧ ((∀ x ∈ hapis, x ≠ "Windows WDM-KS") → selectApiNum "win32" hapis = hapis.length) := by
  refine ⟨fun hp => ?_, ?_, fun hnone => ?_⟩
  · simp [selectApiNum, hp]
  · simp [selectApiNum, wdmksScan_eq_findIdx]
  · simp [selectApiNum, wdmksScan_not_found hapis hnone]

/-- Claim C9 witness: `c9_selectHostApi` at a host-API table without a
WDM-KS entry, on linux (result 0) and on win32 (falls through to the
length, 2). -/
theorem c9_witness :
    (("linux" : String) ≠ "win32" ∧ selectApiNum "linux" ["ASIO", "MME"] = 0)
  ∧ selectApiNum "win32" ["ASIO", "MME"] =
      List.findIdx (fun h => h == "Windows WDM-KS") ["ASIO", "MME"]
  ∧ ((∀ x ∈ (["ASIO", "MME"] : List String), x ≠ "Windows WDM-KS")
      ∧ selectApiNum "win32" ["ASIO", "MME"] = 2) :=
  ⟨⟨by decide, (c9_selectHostApi ["ASIO", "MME"] "linux").1 (by decide)⟩,
   (c9_selectHostApi ["ASIO", "MME"] "win32").2.1,
   ⟨by decide, (c9_selectHostApi ["ASIO", "MME"] "win32").2.2 (by decide)⟩⟩

/-- Claim C10: no exception class named FormatError or NoDevicesFound is
defined anywhere in the program, so both raise statements of the strict
variant fail with NameError for the missing class name: the
unrecognized-format branch produces NameError "FormatError" and the
empty-result branch NameError "NoDevicesFound". -/
theorem c10_undefined_exception_names :
    definedExceptionNames = []
  ∧ raiseStmt "FormatError" "Expecting 1, 2, or 3 format" = PyError.nameError "FormatError"
  ∧ raiseStmt "NoDevicesFound" "No compatible devices found" = PyError.nameError "NoDevicesFound"
  ∧ TMSFindDevices [⟨bad9Name, 0⟩] [] "linux" = Except.error (PyError.nameError "FormatError")
  ∧ TMSFindDevices [⟨"irrelevant", 0⟩] [] "linux" =
      Except.error (PyError.nameError "NoDevicesFound") := ⟨rfl, rfl, rfl, rfl, rfl⟩
